import Mathlib

set_option maxRecDepth 8000

/-!
Verification of the RevEnGo binary-inspection core against its specification.

The development shallowly embeds two Go packages:

* package `reverse` (the structural analyzer): `AnalyzeFile`,
  `identifyFileType`, `extractStrings`, `analyzePE`, `analyzeELF`,
  `analyzeMachO`;
* package `agent` (the concurrent analysis orchestrator): `Agent.AnalyzeFile`,
  `determineFileType`, `isBinary`, the three prompt builders, `parseFindings`
  and `parseVulnerabilities`.

File contents are modelled as lists of byte values (`List Nat`; every entry of
a real file is < 256).  Go strings are modelled at character granularity,
identifying one Go byte with one character — exact for the ASCII data these
functions manipulate.  External collaborators (the Go standard-library
container decoders `pe.NewFile` / `elf.NewFile` / `macho.NewFile`, the external
`strings` command, and the language-model `Generate` call) are modelled as
oracle fields of an environment record, quantified over in the theorems, so
every theorem holds for every behaviour of those collaborators.
-/

deriving instance DecidableEq for Except

namespace RevEnGo

/-- Go `string(bs)`: converting a byte slice to a string, byte for byte. -/
def bytesToString (bs : List Nat) : String :=
  String.mk (bs.map Char.ofNat)

/-- Go `s[:n]` where the caller has already clamped `n` with
`min(len(s), n)`: the first at-most-`n` characters of `s`. -/
def stringTake (n : Nat) (s : String) : String :=
  String.mk (s.data.take n)

/-- Characters trimmed by Go `strings.TrimSpace` on ASCII input. -/
def isSpaceChar (c : Char) : Bool :=
  c = ' ' || c = '\t' || c = '\n' || c = '\x0b' || c = '\x0c' || c = '\r'

/-- Go `strings.TrimSpace` (ASCII fragment): drop leading and trailing
whitespace. -/
def goTrimSpace (s : String) : String :=
  String.mk (((s.data.dropWhile isSpaceChar).reverse.dropWhile isSpaceChar).reverse)

/-- Go `strings.Split(s, "\n")` over the character list: the (possibly
empty) segments between newline characters; the empty input yields one empty
segment, as in Go. -/
def splitLines : List Char → List (List Char)
  | [] => [[]]
  | c :: rest =>
    if c = '\n' then [] :: splitLines rest
    else
      match splitLines rest with
      | [] => [[c]]
      | l :: ls => (c :: l) :: ls

/-- Scan of Go `path/filepath.Ext`, running over the reversed character list:
walk backwards from the end of the path; a path separator before any dot means
no extension, the first dot found yields the suffix from that dot on.
`acc` holds the characters already passed, in forward order. -/
def goExtAux : List Char → List Char → String
  | [], _ => ""
  | c :: rest, acc =>
    if c = '/' then ""
    else if c = '.' then String.mk (c :: acc)
    else goExtAux rest (c :: acc)

/-- Go `filepath.Ext(path)`: the suffix of the final path element beginning at
its final dot, or `""` when the final element has no dot. -/
def goExt (path : String) : String :=
  goExtAux path.data.reverse []

/-- Go `filepath.Base(path)` for slash-separated paths: the last element of
the path after removing trailing slashes; `"."` for the empty path and `"/"`
for an all-slash path. -/
def goBase (path : String) : String :=
  if path = "" then "."
  else
    let rev := path.data.reverse.dropWhile (fun c => c = '/')
    if rev.isEmpty then "/"
    else String.mk ((rev.takeWhile (fun c => c ≠ '/')).reverse)

/-- Go `fmt.Sprintf("%#x", n)`: lowercase hexadecimal with a `0x` marker. -/
def goHexAlt (n : Nat) : String :=
  "0x" ++ String.mk (Nat.toDigits 16 n)

/-- Go `fmt.Sprintf("%08x", n)`: lowercase hexadecimal zero-padded to eight
digits. -/
def goHex08 (n : Nat) : String :=
  String.mk (List.replicate (8 - (Nat.toDigits 16 n).length) '0' ++ Nat.toDigits 16 n)

/-- Whether an `Except` value is a success. -/
def exceptOk {ε α : Type} : Except ε α → Bool
  | .ok _ => true
  | .error _ => false

/-- Go `strings.Contains` over character lists: `sub` occurs contiguously in
the second list. -/
def listContainsSub [BEq α] (sub : List α) : List α → Bool
  | [] => sub.isEmpty
  | a :: l => sub.isPrefixOf (a :: l) || listContainsSub sub l

/-- Maximal runs of consecutive bytes satisfying `p`, left to right,
non-overlapping: the match set of a Go regexp `[class]+` under
`FindAllString`.  `acc` holds the bytes of the run in progress, reversed. -/
def byteRunsAux (p : Nat → Bool) : List Nat → List Nat → List (List Nat)
  | [], acc => if acc.isEmpty then [] else [acc.reverse]
  | b :: bs, acc =>
    if p b then byteRunsAux p bs (b :: acc)
    else if acc.isEmpty then byteRunsAux p bs []
    else acc.reverse :: byteRunsAux p bs []

/-- Maximal runs of consecutive bytes satisfying `p`. -/
def byteRuns (p : Nat → Bool) (bs : List Nat) : List (List Nat) :=
  byteRunsAux p bs []

/- ------------------------------------------------------------------ -/
/- Package `reverse`: data model.                                      -/
/- ------------------------------------------------------------------ -/

/-- Model of `reverse.Section`: a section of a binary file. -/
structure Section where
  name : String
  addr : Nat
  size : Nat
  offset : Nat
  flags : String
  isExecutable : Bool
deriving DecidableEq

/-- Model of `reverse.FileInfo`: the result of structural analysis.  Field order and
zero values mirror the Go struct (`nil` slices and empty strings). -/
structure FileInfo where
  path : String
  name : String
  size : Nat
  type : String
  arch : String
  imports : List String
  exports : List String
  strings : List String
  sections : List Section
  isStripped : Bool
deriving DecidableEq

/-- The view of a PE section the analyzer consumes: header fields plus the
raw section bytes delivered by `Section.Data()` (`none` when that read
fails). -/
structure PESection where
  name : String
  virtualAddress : Nat
  size : Nat
  offset : Nat
  characteristics : Nat
  data : Option (List Nat)

/-- The view of a successfully decoded PE file (`debug/pe.File`) the analyzer
consumes. -/
structure ParsedPE where
  machine : Nat
  importedSymbols : List String
  sections : List PESection

/-- A dynamic-symbol entry of an ELF file: name plus the raw `st_info` byte. -/
structure ELFSymbol where
  name : String
  info : Nat

/-- An ELF section header as consumed by the analyzer. -/
structure ELFSection where
  name : String
  addr : Nat
  size : Nat
  offset : Nat
  flags : Nat

/-- The view of a successfully decoded ELF file (`debug/elf.File`) the
analyzer consumes.  `symbols` is the static symbol table (`Symbols()`, a
failed lookup yielding the empty list exactly as the Go call site discards
the error), `dynamicSymbols` the dynamic one. -/
structure ParsedELF where
  machine : Nat
  symbols : List String
  dynamicSymbols : List ELFSymbol
  sections : List ELFSection

/-- A Mach-O section as consumed by the analyzer. -/
structure MachOSection where
  name : String
  addr : Nat
  size : Nat
  offset : Nat
  flags : Nat

/-- The view of a successfully decoded Mach-O file (`debug/macho.File`) the
analyzer consumes. -/
structure ParsedMachO where
  cpu : Nat
  importedSymbols : List String
  sections : List MachOSection

/-- External collaborators of package `reverse`, as oracles over the file
bytes: the three standard-library container decoders (`pe.NewFile`,
`elf.NewFile`, `macho.NewFile` — each takes an `io.ReaderAt`, so it sees the
whole content independent of any cursor, and returns `none` on a structural
parse failure), and the external `strings` command (`some out` when the
command is available and succeeds with output `out`, `none` when it fails and
the manual fallback runs).  The decoders are deterministic functions of the
bytes, as the real decoders are. -/
structure ReverseEnv where
  peParse : List Nat → Option ParsedPE
  elfParse : List Nat → Option ParsedELF
  machoParse : List Nat → Option ParsedMachO
  stringsCmd : Option String

/- ------------------------------------------------------------------ -/
/- Package `reverse`: string extraction.                               -/
/- ------------------------------------------------------------------ -/

/-- The character class of the fallback extraction regexp
`[A-Za-z0-9/\-:.,_$%'()[\]<> ]{4,}`, as a byte predicate. -/
def isStringByte (b : Nat) : Bool :=
  (65 ≤ b && b ≤ 90) || (97 ≤ b && b ≤ 122) || (48 ≤ b && b ≤ 57) ||
  b == 47 || b == 45 || b == 58 || b == 46 || b == 44 || b == 95 ||
  b == 36 || b == 37 || b == 39 || b == 40 || b == 41 || b == 91 ||
  b == 93 || b == 60 || b == 62 || b == 32

/-- The `strings`-command branch of `reverse.extractStrings`: split the
command output on newlines, trim each line, keep lines of length at least
four. -/
def stringsCmdParse (out : String) : List String :=
  ((splitLines out.data).map (fun l => goTrimSpace (String.mk l))).filter
    (fun s => 4 ≤ s.length)

/-- The manual fallback branch of `reverse.extractStrings`: all maximal runs
of the printable class of length at least four, in order of occurrence
(`regexp.FindAllString` with the class-`{4,}` pattern). -/
def extractStringsFallback (content : List Nat) : List String :=
  ((byteRuns isStringByte content).filter (fun r => 4 ≤ r.length)).map bytesToString

/-- Model of `reverse.extractStrings`: use the external `strings` command when
available, otherwise scan the raw bytes.  (The fallback's re-read of the file
succeeds for the accessible files modelled here, so extraction always
delivers a list.) -/
def extractStrings (env : ReverseEnv) (content : List Nat) : List String :=
  match env.stringsCmd with
  | some out => stringsCmdParse out
  | none => extractStringsFallback content

/- ------------------------------------------------------------------ -/
/- Package `reverse`: format identification.                           -/
/- ------------------------------------------------------------------ -/

/-- The 16-byte header buffer of `reverse.identifyFileType`: `make([]byte,
16)` is zero-initialised and a single `Read` fills its first
`min(len(content), 16)` bytes. -/
def fileHeader (content : List Nat) : List Nat :=
  content.take 16 ++ List.replicate (16 - content.length) 0

/-- The magic-byte decision chain of `reverse.identifyFileType`, given the
16-byte header and the whole content handed to the confirming decoders:
`MZ` then `\x7fELF` then the four Mach-O magics, each confirmed by a
structural parse; a candidate whose parse fails falls through; no match is
the error `"unknown file type"`. -/
def identifyFromHeader (env : ReverseEnv) (header : List Nat) (whole : List Nat) :
    Except String String :=
  if header.take 2 = [0x4D, 0x5A] ∧ (env.peParse whole).isSome then .ok "PE"
  else if header.take 4 = [0x7F, 0x45, 0x4C, 0x46] ∧ (env.elfParse whole).isSome then .ok "ELF"
  else if (header.take 4 = [0xFE, 0xED, 0xFA, 0xCE] ∨ header.take 4 = [0xCE, 0xFA, 0xED, 0xFE] ∨
           header.take 4 = [0xFE, 0xED, 0xFA, 0xCF] ∨ header.take 4 = [0xCF, 0xFA, 0xED, 0xFE]) ∧
          (env.machoParse whole).isSome then .ok "Mach-O"
  else .error "unknown file type"

/-- Model of `reverse.identifyFileType`: read the 16-byte header (an empty file makes
the read fail with `EOF`), seek back to the start, and run the decision
chain. -/
def identifyFileType (env : ReverseEnv) (content : List Nat) : Except String String :=
  if content = [] then .error "EOF"
  else identifyFromHeader env (fileHeader content) content

/-- An open file handle: the bytes on disk and the current read cursor.
Used to check that `identifyFileType` leaves no hidden state behind. -/
structure FileState where
  content : List Nat
  pos : Nat

/-- Go `File.Read(p)` with `len(p) = n`: at end of file the read fails with
`EOF`; otherwise it delivers the next at-most-`n` bytes and advances the
cursor. -/
def fsRead (fs : FileState) (n : Nat) : Except String (List Nat × FileState) :=
  if fs.content.length ≤ fs.pos then .error "EOF"
  else
    let bs := (fs.content.drop fs.pos).take n
    .ok (bs, ⟨fs.content, fs.pos + bs.length⟩)

/-- Go `File.Seek(0, 0)`: reset the cursor to the start of the file. -/
def fsSeekStart (fs : FileState) : FileState :=
  ⟨fs.content, 0⟩

/-- The bytes visible from the cursor onwards. -/
def fsRemaining (fs : FileState) : List Nat :=
  fs.content.drop fs.pos

/-- Model of `reverse.identifyFileType` run against an explicit file handle, cursor
movements included: read the header (advancing the cursor), seek back to the
start, then run the decision chain on the view from the restored cursor.
Returns the identification result together with the final handle. -/
def identifyFileTypeStateful (env : ReverseEnv) (fs : FileState) :
    Except String String × FileState :=
  match fsRead fs 16 with
  | .error e => (.error e, fs)
  | .ok (bs, fs1) =>
    let fs2 := fsSeekStart fs1
    (identifyFromHeader env (bs ++ List.replicate (16 - bs.length) 0) (fsRemaining fs2), fs2)

/- ------------------------------------------------------------------ -/
/- Package `reverse`: per-format analyzers.                            -/
/- ------------------------------------------------------------------ -/

/-- The architecture switch of `reverse.analyzePE` on the COFF machine code:
`IMAGE_FILE_MACHINE_I386 = 0x14c`, `AMD64 = 0x8664`, `ARM = 0x1c0`,
`ARMNT = 0x1c4`, default `fmt.Sprintf("Unknown (%#x)", machine)`. -/
def peArch (machine : Nat) : String :=
  if machine = 0x14c then "x86"
  else if machine = 0x8664 then "x86_64"
  else if machine = 0x1c0 then "ARM"
  else if machine = 0x1c4 then "ARM Thumb-2"
  else "Unknown (" ++ goHexAlt machine ++ ")"

/-- The architecture switch of `reverse.analyzeELF` on `e_machine`:
`EM_386 = 3`, `EM_X86_64 = 62`, `EM_ARM = 40`, `EM_AARCH64 = 183`. -/
def elfArch (machine : Nat) : String :=
  if machine = 3 then "x86"
  else if machine = 62 then "x86_64"
  else if machine = 40 then "ARM"
  else if machine = 183 then "ARM64"
  else "Unknown (" ++ goHexAlt machine ++ ")"

/-- The architecture switch of `reverse.analyzeMachO` on the CPU type:
`CPU386 = 7`, `CPUAmd64 = 0x01000007`, `CPUArm = 12`,
`CPUArm64 = 0x01000012`. -/
def machoArch (cpu : Nat) : String :=
  if cpu = 7 then "x86"
  else if cpu = 0x01000007 then "x86_64"
  else if cpu = 12 then "ARM"
  else if cpu = 0x01000012 then "ARM64"
  else "Unknown (" ++ goHexAlt cpu ++ ")"

/-- The word class `[A-Za-z0-9_]` of the export-scan regexp. -/
def isWordByte (b : Nat) : Bool :=
  (48 ≤ b && b ≤ 57) || (65 ≤ b && b ≤ 90) || (97 ≤ b && b ≤ 122) || b == 95

/-- The heuristic export scan of `reverse.analyzePE` over one section: only
sections named `.edata` or containing `"export"` contribute; their raw bytes
are scanned for word runs, keeping runs longer than three bytes that do not
start with an underscore.  A failing `Data()` read contributes nothing. -/
def peSectionExports (s : PESection) : List String :=
  if s.name = ".edata" ∨ listContainsSub "export".data s.name.data then
    match s.data with
    | none => []
    | some d =>
      (((byteRuns isWordByte d).filter
          (fun r => 3 < r.length && !(r.headD 0 == 95))).map bytesToString)
  else []

/-- The PE section list mapped into `reverse.Section` values; the executable
bit is `Characteristics & IMAGE_SCN_MEM_EXECUTE != 0` with
`IMAGE_SCN_MEM_EXECUTE = 0x20000000`. -/
def peSectionToSection (s : PESection) : Section :=
  { name := s.name, addr := s.virtualAddress, size := s.size, offset := s.offset,
    flags := goHex08 s.characteristics,
    isExecutable := s.characteristics &&& 0x20000000 != 0 }

/-- Model of `reverse.analyzePE`: on a failed re-decode the `FileInfo` is returned
unchanged (the Go function returns early with the error its caller ignores);
on success the architecture lookup, imported symbols, heuristic exports and
section table are filled in. -/
def analyzePE (env : ReverseEnv) (content : List Nat) (info : FileInfo) : FileInfo :=
  match env.peParse content with
  | none => info
  | some f =>
    { info with
      arch := peArch f.machine,
      imports := f.importedSymbols,
      exports := (f.sections.map peSectionExports).flatten,
      sections := f.sections.map peSectionToSection }

/-- ELF `ST_BIND(info) = info >> 4`. -/
def stBind (info : Nat) : Nat := info / 16

/-- ELF `ST_TYPE(info) = info & 0xf`. -/
def stType (info : Nat) : Nat := info % 16

/-- The ELF section list mapped into `reverse.Section` values; the executable
bit is `Flags & SHF_EXECINSTR != 0` with `SHF_EXECINSTR = 0x4`. -/
def elfSectionToSection (s : ELFSection) : Section :=
  { name := s.name, addr := s.addr, size := s.size, offset := s.offset,
    flags := goHex08 s.flags,
    isExecutable := s.flags &&& 0x4 != 0 }

/-- Model of `reverse.analyzeELF`: architecture lookup, stripped detection (empty
static symbol table), imports (dynamic symbols with `STB_GLOBAL = 1` binding
and `STT_FUNC = 2` type, in table order), and the section table.  A failed
re-decode leaves the `FileInfo` unchanged. -/
def analyzeELF (env : ReverseEnv) (content : List Nat) (info : FileInfo) : FileInfo :=
  match env.elfParse content with
  | none => info
  | some f =>
    { info with
      arch := elfArch f.machine,
      isStripped := f.symbols.isEmpty,
      imports := (f.dynamicSymbols.filter
          (fun s => stBind s.info == 1 && stType s.info == 2)).map ELFSymbol.name,
      sections := f.sections.map elfSectionToSection }

/-- The Mach-O section list mapped into `reverse.Section` values; the
executable bit is `Flags & S_ATTR_SOME_INSTRUCTIONS != 0` with
`S_ATTR_SOME_INSTRUCTIONS = 0x400`. -/
def machoSectionToSection (s : MachOSection) : Section :=
  { name := s.name, addr := s.addr, size := s.size, offset := s.offset,
    flags := goHex08 s.flags,
    isExecutable := s.flags &&& 0x400 != 0 }

/-- Model of `reverse.analyzeMachO`: architecture lookup, imported symbols, and the
section table.  A failed re-decode leaves the `FileInfo` unchanged. -/
def analyzeMachO (env : ReverseEnv) (content : List Nat) (info : FileInfo) : FileInfo :=
  match env.machoParse content with
  | none => info
  | some f =>
    { info with
      arch := machoArch f.cpu,
      imports := f.importedSymbols,
      sections := f.sections.map machoSectionToSection }

/- ------------------------------------------------------------------ -/
/- Package `reverse`: AnalyzeFile.                                     -/
/- ------------------------------------------------------------------ -/

/-- The format tag `reverse.AnalyzeFile` records: the identification result,
downgraded to `"Unknown"` when identification failed. -/
def reverseTypeOf (env : ReverseEnv) (content : List Nat) : String :=
  match identifyFileType env content with
  | .error _ => "Unknown"
  | .ok t => t

/-- The `FileInfo` of `reverse.AnalyzeFile` just before the per-format
switch: path, base name and size from `os.Stat`, the (possibly downgraded)
format tag, and the extracted strings; every other field still holds its Go
zero value. -/
def reverseBaseInfo (env : ReverseEnv) (path : String) (content : List Nat) : FileInfo :=
  { path := path, name := goBase path, size := content.length,
    type := reverseTypeOf env content, arch := "",
    imports := [], exports := [], strings := extractStrings env content,
    sections := [], isStripped := false }

/-- Model of `reverse.AnalyzeFile`: fail only when `os.Stat` fails (the file is
modelled as `none`); otherwise build the base `FileInfo`, then dispatch on
the recorded format tag to the per-format analyzer.  The function never
returns an error for an accessible file. -/
def reverseAnalyzeFile (env : ReverseEnv) (path : String) (file : Option (List Nat)) :
    Except String FileInfo :=
  match file with
  | none => .error "failed to access file"
  | some content =>
    let info := reverseBaseInfo env path content
    .ok (if info.type = "PE" then analyzePE env content info
         else if info.type = "ELF" then analyzeELF env content info
         else if info.type = "Mach-O" then analyzeMachO env content info
         else info)

/- ------------------------------------------------------------------ -/
/- Package `agent`: data model.                                        -/
/- ------------------------------------------------------------------ -/

/-- Model of `agent.Finding`. -/
structure Finding where
  type : String
  description : String
  location : String
  severity : String
deriving DecidableEq

/-- Model of `agent.Vulnerability`.  The `float64` CVSS score is modelled as the exact
rational value the source literal denotes; no arithmetic is performed on
it. -/
structure Vulnerability where
  type : String
  description : String
  location : String
  severity : String
  cvss : ℚ
  remediation : String
deriving DecidableEq

/-- Model of `agent.AnalysisResult`, field order as in the Go struct. -/
structure AnalysisResult where
  filename : String
  fileType : String
  fileSize : Nat
  findings : List Finding
  summary : String
  vulnerabilities : List Vulnerability
deriving DecidableEq

/-- The fatal failures of `agent.Agent.AnalyzeFile`: `os.Stat` failure and
the 10 MiB cap.  (The `ioutil.ReadFile` of a file `os.Stat` just found is
modelled as succeeding.) -/
inductive AgentError where
  | accessError
  | sizeLimitExceeded
deriving DecidableEq

/-- The external language-model collaborator of the agent
(`a.model.Generate`): a deterministic prompt-to-text oracle that may fail
with a transport error.  The three task prompts are pairwise distinct
strings, so each task's outcome is independently controllable through this
oracle. -/
structure AgentEnv where
  generate : String → Except String String

/-- Value of `const maxSize = 10 * 1024 * 1024` in `agent.Agent.AnalyzeFile`. -/
def maxAnalysisSize : Nat := 10 * 1024 * 1024

/-- Model of `agent.isBinary`: a NUL byte among the first `min(len(content), 1000)`
bytes. -/
def isBinary (content : List Nat) : Bool :=
  (content.take 1000).any (fun b => b == 0)

/-- Model of `agent.determineFileType`: the extension switch with the binary-vs-text
heuristic as the default branch. -/
def determineFileType (ext : String) (content : List Nat) : String :=
  if ext = ".exe" ∨ ext = ".dll" then "Windows PE Executable"
  else if ext = ".elf" ∨ ext = ".so" then "ELF Binary"
  else if ext = ".jar" then "Java Archive"
  else if ext = ".class" then "Java Bytecode"
  else if ext = ".js" then "JavaScript"
  else if ext = ".py" then "Python"
  else if ext = ".go" then "Go"
  else if ext = ".c" ∨ ext = ".cpp" ∨ ext = ".h" ∨ ext = ".hpp" then "C/C++"
  else if isBinary content then "Binary" else "Text"

/-- Model of `agent.generateInfoExtractionPrompt`: the extraction-task prompt over the
file type and the first at-most-1000 content bytes. -/
def generateInfoExtractionPrompt (fileType : String) (content : List Nat) : String :=
  "Analyze this " ++ fileType ++ " file and extract key information:\n" ++
  "Content sample: " ++ bytesToString (content.take 1000) ++ "\n" ++
  "Provide detailed findings about the structure, imports, dependencies, or other notable elements.\n" ++
  "Format your response in a structured way, one finding per line, with the format:\n" ++
  "TYPE: DESCRIPTION: LOCATION: SEVERITY\n"

/-- Model of `agent.generateVulnerabilityPrompt`: the vulnerability-task prompt. -/
def generateVulnerabilityPrompt (fileType : String) (content : List Nat) : String :=
  "Analyze this " ++ fileType ++ " file for security vulnerabilities:\n" ++
  "Content sample: " ++ bytesToString (content.take 1000) ++ "\n" ++
  "Look for common issues like memory safety, input validation, insecure functions, etc.\n" ++
  "Format your response in a structured way, one vulnerability per line, with the format:\n" ++
  "TYPE: DESCRIPTION: LOCATION: SEVERITY: CVSS: REMEDIATION\n"

/-- Model of `agent.generateSummaryPrompt`: the summary-task prompt. -/
def generateSummaryPrompt (fileType : String) (content : List Nat) : String :=
  "Provide a concise summary of this " ++ fileType ++ " file:\n" ++
  "Content sample: " ++ bytesToString (content.take 1000) ++ "\n" ++
  "What is its likely purpose? What are its main components? Is it potentially malicious?\n" ++
  "Provide your analysis in a paragraph form.\n"

/-- Model of `agent.parseFindings`: regardless of the response content, exactly one
hard-coded sample finding embedding the first at-most-100 response
characters. -/
def parseFindings (response : String) : List Finding :=
  [{ type := "Sample",
     description := "This is a sample finding from the response: " ++ stringTake 100 response,
     location := "N/A",
     severity := "Low" }]

/-- Model of `agent.parseVulnerabilities`: regardless of the response content, exactly
one hard-coded sample vulnerability with CVSS `3.2`. -/
def parseVulnerabilities (response : String) : List Vulnerability :=
  [{ type := "Sample",
     description := "This is a sample vulnerability from the response: " ++ stringTake 100 response,
     location := "N/A",
     severity := "Low",
     cvss := 3.2,
     remediation := "Example remediation steps would go here." }]

/-- Task 1 of `agent.Agent.AnalyzeFile` (the extraction goroutine): a failed
`Generate` call contributes no findings; a successful one contributes the
parsed findings in parse order. -/
def runExtractionTask (env : AgentEnv) (fileType : String) (content : List Nat) :
    List Finding :=
  match env.generate (generateInfoExtractionPrompt fileType content) with
  | .error _ => []
  | .ok response => parseFindings response

/-- Task 2 of `agent.Agent.AnalyzeFile` (the vulnerability goroutine). -/
def runVulnerabilityTask (env : AgentEnv) (fileType : String) (content : List Nat) :
    List Vulnerability :=
  match env.generate (generateVulnerabilityPrompt fileType content) with
  | .error _ => []
  | .ok response => parseVulnerabilities response

/-- Task 3 of `agent.Agent.AnalyzeFile` (the summary goroutine): the summary
stays the zero value `""` when the call fails. -/
def runSummaryTask (env : AgentEnv) (fileType : String) (content : List Nat) : String :=
  match env.generate (generateSummaryPrompt fileType content) with
  | .error _ => ""
  | .ok response => response

/-- Model of `agent.Agent.AnalyzeFile`.  The three tasks run concurrently in Go and
their items are drained from buffered channels after all three finish; since
every task sends at most one item (`parseFindings` and `parseVulnerabilities`
each produce exactly one, the summary task one string) the capacities 10, 10
and 1 are never exceeded, no send blocks, and the fan-in is equivalent to
this sequential aggregation: findings in task-1 parse order, vulnerabilities
in task-2 parse order, the summary the last (only) string received.  Fatal
exits: `os.Stat` failure and the pre-read 10 MiB cap. -/
def agentAnalyzeFile (env : AgentEnv) (path : String) (file : Option (List Nat)) :
    Except AgentError AnalysisResult :=
  match file with
  | none => .error .accessError
  | some content =>
    if content.length > maxAnalysisSize then .error .sizeLimitExceeded
    else
      .ok { filename := goBase path,
            fileType := determineFileType (goExt path) content,
            fileSize := content.length,
            findings := runExtractionTask env (determineFileType (goExt path) content) content,
            summary := runSummaryTask env (determineFileType (goExt path) content) content,
            vulnerabilities :=
              runVulnerabilityTask env (determineFileType (goExt path) content) content }

/- ------------------------------------------------------------------ -/
/- Concrete environments and inputs used to instantiate the theorems.  -/
/- ------------------------------------------------------------------ -/

/-- An environment in which every container decode fails and the external
`strings` command is unavailable (the manual fallback runs). -/
def oracleNone : ReverseEnv :=
  ⟨fun _ => none, fun _ => none, fun _ => none, none⟩

/-- An environment in which every container decode fails and the external
`strings` command succeeds with empty output. -/
def oracleEmptyOut : ReverseEnv :=
  ⟨fun _ => none, fun _ => none, fun _ => none, some ""⟩

/-- A language-model oracle whose every call fails with a transport error. -/
def agentFailEnv : AgentEnv :=
  ⟨fun _ => .error "network error"⟩

/-- A language-model oracle whose every call succeeds with the response
`"RESPONSE"`. -/
def agentOkEnv : AgentEnv :=
  ⟨fun _ => .ok "RESPONSE"⟩

/-- A file of 10 MiB + 1 zero bytes: one byte over the analysis cap. -/
def bigZeroFile : List Nat := List.replicate (10 * 1024 * 1024 + 1) 0

/-- An 8-byte file starting with the ELF magic and truncated right after:
`7F 45 4C 46` then `"ABCD"`. -/
def elfTruncated8 : List Nat := [0x7F, 0x45, 0x4C, 0x46, 65, 66, 67, 68]

/-- The bytes of `"ab\x00cdef\x00gh"`. -/
def abNulCdefNulGh : List Nat := [97, 98, 0, 99, 100, 101, 102, 0, 103, 104]

/-- A decoded PE file whose COFF machine code is `0x8664`. -/
def pe8664 : ParsedPE := ⟨0x8664, [], []⟩

/-- An environment whose PE decoder always yields [pe8664]. -/
def peEnv8664 : ReverseEnv :=
  ⟨fun _ => some pe8664, fun _ => none, fun _ => none, none⟩

/-- A `FileInfo` holding only Go zero values. -/
def emptyFileInfo : FileInfo := ⟨"", "", 0, "", "", [], [], [], [], false⟩

/- ------------------------------------------------------------------ -/
/- Helper lemmas.                                                      -/
/- ------------------------------------------------------------------ -/

theorem bytesToString_length (bs : List Nat) : (bytesToString bs).length = bs.length := by
  simp [bytesToString, String.length]

theorem fileHeader_replicate_zero (n : Nat) (h : 16 ≤ n) :
    fileHeader (List.replicate n 0) = List.replicate 16 0 := by
  unfold fileHeader
  rw [List.take_replicate, List.length_replicate]
  have h1 : min 16 n = 16 := by omega
  have h2 : 16 - n = 0 := by omega
  rw [h1, h2]
  simp

theorem identify_zeros (env : ReverseEnv) (n : Nat) (h : 16 ≤ n) :
    identifyFileType env (List.replicate n 0) = .error "unknown file type" := by
  have hne : (List.replicate n (0 : Nat)) ≠ [] := by
    simp only [ne_eq, List.replicate_eq_nil_iff]
    omega
  have t2 : (List.replicate 16 (0 : Nat)).take 2 = [0, 0] := by decide
  have t4 : (List.replicate 16 (0 : Nat)).take 4 = [0, 0, 0, 0] := by decide
  rw [identifyFileType, if_neg hne, fileHeader_replicate_zero n h]
  simp [identifyFromHeader, t2, t4]

theorem fileHeader_take_of_le (content : List Nat) (k : Nat) (hk : k ≤ 16)
    (hlen : k ≤ content.length) : (fileHeader content).take k = content.take k := by
  unfold fileHeader
  rw [List.take_append_of_le_length (by rw [List.length_take]; omega)]
  rw [List.take_take, Nat.min_eq_left hk]

theorem identify_ok_cases {env : ReverseEnv} {content : List Nat} {t : String}
    (h : identifyFileType env content = .ok t) :
    t = "PE" ∨ t = "ELF" ∨ t = "Mach-O" := by
  unfold identifyFileType identifyFromHeader at h
  repeat' split at h
  all_goals simp_all

theorem analyzePE_type (env : ReverseEnv) (content : List Nat) (info : FileInfo) :
    (analyzePE env content info).type = info.type := by
  cases h : env.peParse content <;> simp [analyzePE, h]

theorem analyzeELF_type (env : ReverseEnv) (content : List Nat) (info : FileInfo) :
    (analyzeELF env content info).type = info.type := by
  cases h : env.elfParse content <;> simp [analyzeELF, h]

theorem analyzeMachO_type (env : ReverseEnv) (content : List Nat) (info : FileInfo) :
    (analyzeMachO env content info).type = info.type := by
  cases h : env.machoParse content <;> simp [analyzeMachO, h]

theorem eq_cons_of_take_four {l : List Nat} {a b c d : Nat}
    (h : l.take 4 = [a, b, c, d]) : ∃ rest, l = a :: b :: c :: d :: rest := by
  match l with
  | [] => simp at h
  | [x] => simp at h
  | [x, y] => simp at h
  | [x, y, z] => simp at h
  | x :: y :: z :: w :: rest =>
    simp only [List.take_succ_cons, List.take_zero, List.cons.injEq, and_true] at h
    obtain ⟨h1, h2, h3, h4⟩ := h
    exact ⟨rest, by rw [h1, h2, h3, h4]⟩

theorem bigZeroFile_length : bigZeroFile.length = 10 * 1024 * 1024 + 1 :=
  List.length_replicate _ _

theorem agentAnalyzeFile_ok_fields {env : AgentEnv} {path : String} {content : List Nat}
    {r : AnalysisResult} (hok : agentAnalyzeFile env path (some content) = .ok r) :
    r.fileType = determineFileType (goExt path) content ∧
    r.findings = runExtractionTask env r.fileType content ∧
    r.vulnerabilities = runVulnerabilityTask env r.fileType content ∧
    r.summary = runSummaryTask env r.fileType content := by
  by_cases h : content.length > maxAnalysisSize
  · simp [agentAnalyzeFile, h] at hok
  · simp only [agentAnalyzeFile] at hok
    rw [if_neg h] at hok
    simp only [Except.ok.injEq] at hok
    subst hok
    exact ⟨rfl, rfl, rfl, rfl⟩

theorem goExt_append_exe (q : String) : goExt (q ++ ".exe") = ".exe" := by
  have hdata : (q ++ ".exe").data = q.data ++ ['.', 'e', 'x', 'e'] := by
    cases q
    rfl
  rw [goExt, hdata, List.reverse_append]
  show goExtAux ('e' :: 'x' :: 'e' :: '.' :: q.data.reverse) [] = ".exe"
  rfl

/- ------------------------------------------------------------------ -/
/- Claim theorems.                                                     -/
/- ------------------------------------------------------------------ -/

/-- C1: for every file (in particular every file of at most 10 MiB) and for
every behaviour of the InsightCapability oracle — each of the three task
calls to `Generate` may succeed with any string or fail with any error —
`agent.Agent.AnalyzeFile` is a total function that either fails with one of
the two typed fatal errors (file inaccessible, or over the size cap) or
returns a well-formed `AnalysisResult` value; the embedding is total, so no
input can make it crash. -/
theorem c1_agent_analyze_total (env : AgentEnv) (path : String) (file : Option (List Nat)) :
    agentAnalyzeFile env path file = .error .accessError ∨
    agentAnalyzeFile env path file = .error .sizeLimitExceeded ∨
    exceptOk (agentAnalyzeFile env path file) = true := by
  cases file with
  | none => left; rfl
  | some content =>
    by_cases h : content.length > maxAnalysisSize
    · right; left; simp [agentAnalyzeFile, h]
    · right; right; simp [agentAnalyzeFile, h, exceptOk]

/-- C2: for every analysis call that passes the entry checks,
`agent.Agent.AnalyzeFile` returns a result without error, and the result
holds exactly the contributions of the tasks that succeeded: the findings are
exactly what the extraction task produced, the vulnerabilities exactly what
the vulnerability task produced, the summary exactly what the summary task
produced, and any task whose `Generate` call failed contributes nothing
(empty findings, empty vulnerabilities, or the empty summary respectively) —
so when all three fail the result has empty `Findings`, empty
`Vulnerabilities` and an empty `Summary`, and no error reaches the caller. -/
theorem c2_partial_failure_tolerance (env : AgentEnv) (path : String) (content : List Nat)
    (hsize : content.length ≤ maxAnalysisSize) :
    exceptOk (agentAnalyzeFile env path (some content)) = true ∧
    ∀ r, agentAnalyzeFile env path (some content) = .ok r →
      r.findings = runExtractionTask env r.fileType content ∧
      r.vulnerabilities = runVulnerabilityTask env r.fileType content ∧
      r.summary = runSummaryTask env r.fileType content ∧
      (∀ e, env.generate (generateInfoExtractionPrompt r.fileType content) = .error e →
        r.findings = []) ∧
      (∀ e, env.generate (generateVulnerabilityPrompt r.fileType content) = .error e →
        r.vulnerabilities = []) ∧
      (∀ e, env.generate (generateSummaryPrompt r.fileType content) = .error e →
        r.summary = "") := by
  have hlt : ¬ content.length > maxAnalysisSize := by omega
  constructor
  · simp [agentAnalyzeFile, hlt, exceptOk]
  · intro r hr
    simp only [agentAnalyzeFile, hlt, if_false, ite_false, Except.ok.injEq] at hr
    subst hr
    refine ⟨rfl, rfl, rfl, ?_, ?_, ?_⟩
    · intro e he; simp [runExtractionTask, he]
    · intro e he; simp [runVulnerabilityTask, he]
    · intro e he; simp [runSummaryTask, he]

/-- C2 witness: a concrete call (1-byte file, every `Generate` call failing)
in which the orchestrator still returns a result without error. -/
theorem c2_witness :
    exceptOk (agentAnalyzeFile agentFailEnv "f" (some [65])) = true :=
  (c2_partial_failure_tolerance agentFailEnv "f" [65] (by norm_num [maxAnalysisSize])).1

/-- C3 counterexample: the claim says the 10 MiB cap is enforced on every
analysis path, including the structural parser path, but
`reverse.AnalyzeFile` enforces no size cap at all: a file of 10 MiB + 1
bytes is fully analyzed — identification, string extraction and all — and a
result is returned instead of a size-limit error. -/
theorem c3_counterexample :
    maxAnalysisSize < bigZeroFile.length ∧
    reverseAnalyzeFile oracleEmptyOut "big.bin" (some bigZeroFile) =
      .ok ⟨"big.bin", "big.bin", 10 * 1024 * 1024 + 1, "Unknown", "", [], [], [], [], false⟩ := by
  constructor
  · rw [bigZeroFile_length]
    exact Nat.lt_succ_self _
  · have hid : identifyFileType oracleEmptyOut bigZeroFile = .error "unknown file type" :=
      identify_zeros oracleEmptyOut (10 * 1024 * 1024 + 1) (by norm_num)
    have ht : reverseTypeOf oracleEmptyOut bigZeroFile = "Unknown" := by
      simp [reverseTypeOf, hid]
    have hs : stringsCmdParse "" = [] := by decide
    have hb : goBase "big.bin" = "big.bin" := by decide
    have hex : extractStrings oracleEmptyOut bigZeroFile = [] := by
      rw [show extractStrings oracleEmptyOut bigZeroFile = stringsCmdParse "" from rfl, hs]
    simp [reverseAnalyzeFile, reverseBaseInfo, ht, hex, hb, bigZeroFile_length]

/-- C3 amended: the 10 MiB cap is enforced only on the orchestrator path —
`agent.Agent.AnalyzeFile` rejects every over-cap file with the fatal
size-limit error before reading the content and before consulting any task
outcome (for every oracle behaviour), with no partial result; the structural
path `reverse.AnalyzeFile` enforces no size cap. -/
theorem c3_amended_agent_size_cap (env : AgentEnv) (path : String) (content : List Nat)
    (h : maxAnalysisSize < content.length) :
    agentAnalyzeFile env path (some content) = .error .sizeLimitExceeded := by
  simp [agentAnalyzeFile, h]

/-- C3 witness: the 10 MiB + 1 file is rejected by the orchestrator path. -/
theorem c3_witness :
    agentAnalyzeFile agentFailEnv "big.bin" (some bigZeroFile) = .error .sizeLimitExceeded :=
  c3_amended_agent_size_cap agentFailEnv "big.bin" bigZeroFile
    (by rw [bigZeroFile_length]; exact Nat.lt_succ_self _)

/-- C4: for every file that begins with the ELF magic `7F 45 4C 46` but whose
ELF structural parse fails (as it does for a file truncated to 8 bytes),
the structural analyzer succeeds without error: identification fails (the
ELF candidate is not confirmed), `FileInfo.Type` is `"Unknown"` with no ELF
field populated (architecture, imports, exports and sections keep their zero
values), and `FileInfo.Strings` is still the extraction from the raw
bytes. -/
theorem c4_truncated_elf (env : ReverseEnv) (path : String) (content : List Nat)
    (hmagic : content.take 4 = [0x7F, 0x45, 0x4C, 0x46])
    (hfail : env.elfParse content = none) :
    identifyFileType env content = .error "unknown file type" ∧
    reverseAnalyzeFile env path (some content) =
      .ok { path := path, name := goBase path, size := content.length,
            type := "Unknown", arch := "", imports := [], exports := [],
            strings := extractStrings env content, sections := [],
            isStripped := false } := by
  obtain ⟨rest, hc⟩ := eq_cons_of_take_four hmagic
  subst hc
  have hlen4 : 4 ≤ (0x7F :: 0x45 :: 0x4C :: 0x46 :: rest).length := by
    simp only [List.length_cons]
    omega
  have h2 : (fileHeader (0x7F :: 0x45 :: 0x4C :: 0x46 :: rest)).take 2 = [0x7F, 0x45] :=
    (fileHeader_take_of_le _ 2 (by omega) (by omega)).trans rfl
  have h4 : (fileHeader (0x7F :: 0x45 :: 0x4C :: 0x46 :: rest)).take 4 =
      [0x7F, 0x45, 0x4C, 0x46] :=
    (fileHeader_take_of_le _ 4 (by omega) hlen4).trans rfl
  have hid : identifyFileType env (0x7F :: 0x45 :: 0x4C :: 0x46 :: rest) =
      .error "unknown file type" := by
    rw [identifyFileType, if_neg (by simp)]
    simp [identifyFromHeader, h2, h4, hfail]
  refine ⟨hid, ?_⟩
  have ht : reverseTypeOf env (0x7F :: 0x45 :: 0x4C :: 0x46 :: rest) = "Unknown" := by
    simp [reverseTypeOf, hid]
  simp [reverseAnalyzeFile, reverseBaseInfo, ht]

/-- C4 witness: the 8-byte file `7F 45 4C 46 41 42 43 44` with a failing ELF
decoder. -/
theorem c4_witness :
    identifyFileType oracleNone elfTruncated8 = .error "unknown file type" ∧
    reverseAnalyzeFile oracleNone "p" (some elfTruncated8) =
      .ok { path := "p", name := goBase "p", size := elfTruncated8.length,
            type := "Unknown", arch := "", imports := [], exports := [],
            strings := extractStrings oracleNone elfTruncated8, sections := [],
            isStripped := false } :=
  c4_truncated_elf oracleNone "p" elfTruncated8 (by decide) rfl

/-- C5: for every input file, the `FileInfo` returned by
`reverse.AnalyzeFile` satisfies the invariant: format tag `"Unknown"`
implies the architecture label is absent (the empty string) and the
sections, imports and exports sequences are all empty — while the strings
sequence is unconstrained. -/
theorem c5_unknown_invariant (env : ReverseEnv) (path : String) (file : Option (List Nat))
    (r : FileInfo) (hok : reverseAnalyzeFile env path file = .ok r)
    (hunk : r.type = "Unknown") :
    r.arch = "" ∧ r.sections = [] ∧ r.imports = [] ∧ r.exports = [] := by
  cases file with
  | none => simp [reverseAnalyzeFile] at hok
  | some content =>
    cases hid : identifyFileType env content with
    | error e =>
      have hb : (reverseBaseInfo env path content).type = "Unknown" := by
        simp [reverseBaseInfo, reverseTypeOf, hid]
      simp only [reverseAnalyzeFile, Except.ok.injEq] at hok
      rw [hb] at hok
      simp at hok
      subst hok
      simp [reverseBaseInfo]
    | ok t =>
      have hb : (reverseBaseInfo env path content).type = t := by
        simp [reverseBaseInfo, reverseTypeOf, hid]
      simp only [reverseAnalyzeFile, Except.ok.injEq] at hok
      rw [hb] at hok
      rcases identify_ok_cases hid with h | h | h
      · subst h
        simp at hok
        rw [← hok, analyzePE_type, hb] at hunk
        exact absurd hunk (by decide)
      · subst h
        simp at hok
        rw [← hok, analyzeELF_type, hb] at hunk
        exact absurd hunk (by decide)
      · subst h
        simp at hok
        rw [← hok, analyzeMachO_type, hb] at hunk
        exact absurd hunk (by decide)

/-- C5 witness: a 3-byte unrecognized file, analyzed with the `strings`
command returning empty output, yields an Unknown-tagged result whose
architecture, sections, imports and exports are all empty. -/
theorem c5_witness :
    (⟨"p", "p", 3, "Unknown", "", [], [], [], [], false⟩ : FileInfo).arch = "" ∧
    (⟨"p", "p", 3, "Unknown", "", [], [], [], [], false⟩ : FileInfo).sections = [] ∧
    (⟨"p", "p", 3, "Unknown", "", [], [], [], [], false⟩ : FileInfo).imports = [] ∧
    (⟨"p", "p", 3, "Unknown", "", [], [], [], [], false⟩ : FileInfo).exports = [] :=
  c5_unknown_invariant oracleEmptyOut "p" (some [1, 2, 3])
    ⟨"p", "p", 3, "Unknown", "", [], [], [], [], false⟩ (by decide) rfl

/-- C6: `reverse.identifyFileType` is a pure, deterministic, idempotent
function of the file's bytes: run against an explicit file handle with its
cursor movements (read the 16-byte header, seek back, confirm), it computes
exactly the pure function of the content — so any number of calls on the
same bytes yields the same tag — and it leaves the file content untouched
(no hidden state); the cursor is restored to the start before the
confirming decoders run, so they see the whole file. -/
theorem c6_identify_pure_idempotent (env : ReverseEnv) (content : List Nat) :
    (identifyFileTypeStateful env ⟨content, 0⟩).1 = identifyFileType env content ∧
    (identifyFileTypeStateful env ⟨content, 0⟩).2.content = content := by
  cases content with
  | nil => exact ⟨rfl, rfl⟩
  | cons a rest =>
    have hr : fsRead ⟨a :: rest, 0⟩ 16 =
        .ok ((a :: rest).take 16, ⟨a :: rest, 0 + ((a :: rest).take 16).length⟩) := by
      simp [fsRead]
    have hcount : 16 - ((a :: rest).take 16).length = 16 - (a :: rest).length := by
      simp only [List.length_take]
      omega
    constructor
    · simp only [identifyFileTypeStateful, hr, fsSeekStart, fsRemaining, List.drop_zero]
      rw [identifyFileType, if_neg (by simp), hcount]
      rfl
    · simp only [identifyFileTypeStateful, hr, fsSeekStart]

/-- C7: for every structurally valid PE file, `reverse.analyzePE` resolves
the architecture string by the fixed lookup `peArch` on the COFF machine
code; the lookup sends `0x8664` to exactly `"x86_64"` and the unrecognized
code `0x9999` to exactly `"Unknown (0x9999)"` instead of failing. -/
theorem c7_pe_arch_lookup :
    (∀ (env : ReverseEnv) (content : List Nat) (info : FileInfo) (f : ParsedPE),
        env.peParse content = some f →
        (analyzePE env content info).arch = peArch f.machine) ∧
    peArch 0x8664 = "x86_64" ∧ peArch 0x9999 = "Unknown (0x9999)" := by
  refine ⟨?_, rfl, by decide⟩
  intro env content info f h
  simp [analyzePE, h]

/-- C7 witness: a decoded PE file with machine code `0x8664` resolves to
`"x86_64"`. -/
theorem c7_witness : (analyzePE peEnv8664 [] emptyFileInfo).arch = "x86_64" := by
  have h := c7_pe_arch_lookup.1 peEnv8664 [] emptyFileInfo pe8664 rfl
  exact h.trans (by decide)

/-- C8: under both extraction strategies — the external `strings`-command
path and the fallback printable-ASCII scan — every string emitted by
`reverse.extractStrings` has length at least 4, so no shorter string is ever
present in the returned sequence; and on the bytes of `"ab\x00cdef\x00gh"`
the fallback emits exactly `["cdef"]` — the run `cdef` is kept while `ab`
and `gh` are dropped. -/
theorem c8_min_string_length :
    (∀ (env : ReverseEnv) (content : List Nat) (s : String),
        s ∈ extractStrings env content → 4 ≤ s.length) ∧
    extractStrings oracleNone abNulCdefNulGh = ["cdef"] := by
  constructor
  · intro env content s hs
    cases hcmd : env.stringsCmd with
    | none =>
      simp only [extractStrings, hcmd] at hs
      simp only [extractStringsFallback, List.mem_map, List.mem_filter,
        decide_eq_true_eq] at hs
      obtain ⟨r, ⟨_, hlen⟩, hmap⟩ := hs
      rw [← hmap, bytesToString_length]
      exact hlen
    | some out =>
      simp only [extractStrings, hcmd] at hs
      simp only [stringsCmdParse, List.mem_filter, decide_eq_true_eq] at hs
      exact hs.2
  · decide

/-- C8 witness: the run `cdef` extracted by the fallback from
`"ab\x00cdef\x00gh"` has length at least 4. -/
theorem c8_witness : 4 ≤ ("cdef" : String).length :=
  c8_min_string_length.1 oracleNone abNulCdefNulGh "cdef" (by decide)

/-- C9: the `FileType` recorded in the orchestrator's `AnalysisResult` is
determined solely by the file-name extension, with the NUL-byte heuristic
over the first 1000 bytes as fallback for unrecognized extensions, and is
independent of the magic-byte format sniffer: every path ending in `".exe"`
yields `"Windows PE Executable"` regardless of the file's content and of
every oracle behaviour, and every unrecognized extension yields `"Binary"`
or `"Text"` according to `isBinary`. -/
theorem c9_filetype_extension_only :
    (∀ (q : String) (env : AgentEnv) (content : List Nat) (r : AnalysisResult),
        agentAnalyzeFile env (q ++ ".exe") (some content) = .ok r →
        r.fileType = "Windows PE Executable") ∧
    (∀ (ext : String) (content : List Nat),
        ext ≠ ".exe" → ext ≠ ".dll" → ext ≠ ".elf" → ext ≠ ".so" → ext ≠ ".jar" →
        ext ≠ ".class" → ext ≠ ".js" → ext ≠ ".py" → ext ≠ ".go" → ext ≠ ".c" →
        ext ≠ ".cpp" → ext ≠ ".h" → ext ≠ ".hpp" →
        determineFileType ext content =
          if isBinary content then "Binary" else "Text") := by
  constructor
  · intro q env content r hok
    rw [(agentAnalyzeFile_ok_fields hok).1, goExt_append_exe]
    rfl
  · intro ext content h1 h2 h3 h4 h5 h6 h7 h8 h9 h10 h11 h12 h13
    simp [determineFileType, h1, h2, h3, h4, h5, h6, h7, h8, h9, h10, h11, h12, h13]

/-- C9 witness: the path `"m" ++ ".exe"` with content `[0]` (which the
NUL heuristic would call binary) is reported as a Windows PE executable. -/
theorem c9_witness :
    (AnalysisResult.mk "m.exe" "Windows PE Executable" 1 [] ""
        []).fileType = "Windows PE Executable" :=
  c9_filetype_extension_only.1 "m" agentFailEnv [0]
    (AnalysisResult.mk "m.exe" "Windows PE Executable" 1 [] "" []) (by decide)

/-- C10: for every response string, `agent.parseFindings` returns exactly one
finding — type `"Sample"`, severity `"Low"`, description embedding the first
at-most-100 characters of the response — and `agent.parseVulnerabilities`
returns exactly one vulnerability with CVSS exactly `3.2`, regardless of the
response's content; consequently a successful extraction task contributes
exactly one finding and a successful vulnerability task exactly one
vulnerability to the `AnalysisResult`, never zero and never more. -/
theorem c10_parse_single_item (response : String) :
    parseFindings response =
      [{ type := "Sample",
         description := "This is a sample finding from the response: " ++
           stringTake 100 response,
         location := "N/A", severity := "Low" }] ∧
    parseVulnerabilities response =
      [{ type := "Sample",
         description := "This is a sample vulnerability from the response: " ++
           stringTake 100 response,
         location := "N/A", severity := "Low", cvss := 3.2,
         remediation := "Example remediation steps would go here." }] ∧
    (parseFindings response).length = 1 ∧
    (parseVulnerabilities response).length = 1 ∧
    (stringTake 100 response).length ≤ 100 ∧
    (∀ (env : AgentEnv) (path : String) (content : List Nat) (r : AnalysisResult)
        (s : String),
        agentAnalyzeFile env path (some content) = .ok r →
        env.generate (generateInfoExtractionPrompt r.fileType content) = .ok s →
        r.findings.length = 1) ∧
    (∀ (env : AgentEnv) (path : String) (content : List Nat) (r : AnalysisResult)
        (s : String),
        agentAnalyzeFile env path (some content) = .ok r →
        env.generate (generateVulnerabilityPrompt r.fileType content) = .ok s →
        r.vulnerabilities.length = 1) := by
  refine ⟨rfl, rfl, rfl, rfl, ?_, ?_, ?_⟩
  · have h : (stringTake 100 response).length = (response.data.take 100).length := rfl
    rw [h, List.length_take]
    omega
  · intro env path content r s hok hgen
    rw [(agentAnalyzeFile_ok_fields hok).2.1, runExtractionTask, hgen]
    rfl
  · intro env path content r s hok hgen
    rw [(agentAnalyzeFile_ok_fields hok).2.2.1, runVulnerabilityTask, hgen]
    rfl

/-- C10 witness: with every `Generate` call succeeding with `"RESPONSE"`, a
concrete analysis result carries exactly one finding. -/
theorem c10_witness :
    (AnalysisResult.mk "f" "Text" 1 (parseFindings "RESPONSE") "RESPONSE"
        (parseVulnerabilities "RESPONSE")).findings.length = 1 :=
  (c10_parse_single_item "RESPONSE").2.2.2.2.2.1 agentOkEnv "f" [65]
    (AnalysisResult.mk "f" "Text" 1 (parseFindings "RESPONSE") "RESPONSE"
      (parseVulnerabilities "RESPONSE")) "RESPONSE" rfl rfl

end RevEnGo
